import Mathlib

/-!
# Backend service (`apps/backend/main.go`): telemetry lifecycle and request handling

A shallow embedding of the Go program.  Effects are made explicit:

* a Go `error` is an `Option String` (`none` is `nil`);
* the SDK providers captured by the shutdown closure are given by the results of
  their successive `Shutdown` calls, and every call is appended to a call list;
* the process environment is a lookup function, `os.Getenv` returns `""` for an
  unset variable;
* the random source and the clock are explicit inputs of the handlers.
-/

namespace Backend

/-! ## Telemetry shutdown closure (`initOpenTelemetry`, lines 180-188) -/

/-- A `Shutdown` call issued on one of the two providers. -/
inductive Call where
  | traceShutdown
  | metricShutdown
  deriving DecidableEq, Repr

/-- The two providers captured by the closure, as seen by it: the result of the
n-th call (counted from 0) of `tracerProvider.Shutdown` and of
`meterProvider.Shutdown`; `none` is a nil error. -/
structure Providers where
  traceResult : Nat → Option String
  metricResult : Nat → Option String

/-- How often each provider has been shut down so far, and the calls in the order
they were issued. -/
structure ProviderState where
  traceCalls : Nat
  metricCalls : Nat
  calls : List Call
  deriving DecidableEq, Repr

/-- No `Shutdown` has been issued yet. -/
def ProviderState.fresh : ProviderState :=
  { traceCalls := 0, metricCalls := 0, calls := [] }

/-- The call `tracerProvider.Shutdown(ctx)`. -/
def tracerProviderShutdown (p : Providers) (s : ProviderState) : Option String × ProviderState :=
  (p.traceResult s.traceCalls,
   { s with traceCalls := s.traceCalls + 1, calls := s.calls ++ [Call.traceShutdown] })

/-- The call `meterProvider.Shutdown(ctx)`. -/
def meterProviderShutdown (p : Providers) (s : ProviderState) : Option String × ProviderState :=
  (p.metricResult s.metricCalls,
   { s with metricCalls := s.metricCalls + 1, calls := s.calls ++ [Call.metricShutdown] })

/-- The closure returned by `initOpenTelemetry`:
```go
if err := tracerProvider.Shutdown(ctx); err != nil { return err }
if err := meterProvider.Shutdown(ctx); err != nil { return err }
return nil
```
-/
def shutdown (p : Providers) (s : ProviderState) : Option String × ProviderState :=
  match tracerProviderShutdown p s with
  | (some err, s1) => (some err, s1)
  | (none, s1) =>
    match meterProviderShutdown p s1 with
    | (some err, s2) => (some err, s2)
    | (none, s2) => (none, s2)

/-- The provider calls issued by one invocation of the closure started in `s`. -/
def shutdownCalls (p : Providers) (s : ProviderState) : List Call :=
  (shutdown p s).2.calls.drop s.calls.length

/-- Providers whose `Shutdown` always gives the same two results. -/
def constProviders (t m : Option String) : Providers :=
  { traceResult := fun _ => t, metricResult := fun _ => m }

/-- Providers that shut down cleanly the first time and whose meter provider
reports an error on every later `Shutdown`, as the metric SDK documents for
`MeterProvider.Shutdown` ("subsequent calls ... will return an error"). -/
def sdkProviders : Providers :=
  { traceResult := fun _ => none,
    metricResult := fun n => if n = 0 then none else some "reader is shutdown" }

/-! ## Exporter configuration (`initOpenTelemetry`, lines 100-178) -/

/-- The process environment; `none` for a variable that is not set. -/
abbrev Env := String → Option String

/-- The call `os.Getenv(key)`: the value, or `""` when the variable is not set. -/
def getenv (env : Env) (key : String) : String :=
  (env key).getD ""

/-- The literal assigned at line 104. -/
def defaultEndpoint : String := "otel-collector.observability.svc.cluster.local:4317"

/-- Errors returned by the SDK constructors called during initialisation
(`none`: the constructor succeeded). -/
structure InitFailures where
  resource : Option String
  traceExporter : Option String
  metricExporter : Option String
  counter : Option String
  histogram : Option String

/-- No constructor fails. -/
def InitFailures.noFailure : InitFailures :=
  { resource := none, traceExporter := none, metricExporter := none,
    counter := none, histogram := none }

/-- The SDK calls made by `initOpenTelemetry`, with the arguments that matter. -/
inductive InitStep where
  | resourceNew
  | traceExporterNew (endpoint : String) (insecure : Bool)
  | setTracerProvider
  | metricExporterNew (endpoint : String) (insecure : Bool)
  | setMeterProvider
  | int64Counter (name description unit : String)
  | float64Histogram (name description unit : String)
  | fatal (msg : String)
  deriving DecidableEq, Repr

/-- The body of `initOpenTelemetry` up to the returned closure: the SDK calls in
program order, and whether the function returned (`false`: `logger.Fatal` ended
the process). -/
def initOpenTelemetry (env : Env) (f : InitFailures) : List InitStep × Bool :=
  let otelEndpoint := getenv env "OTEL_EXPORTER_OTLP_ENDPOINT"
  let otelEndpoint := if otelEndpoint = "" then defaultEndpoint else otelEndpoint
  let s1 := [InitStep.resourceNew]
  match f.resource with
  | some _ => (s1 ++ [InitStep.fatal "Failed to create resource"], false)
  | none =>
  let s2 := s1 ++ [InitStep.traceExporterNew otelEndpoint true]
  match f.traceExporter with
  | some _ => (s2 ++ [InitStep.fatal "Failed to create trace exporter"], false)
  | none =>
  let s3 := s2 ++ [InitStep.setTracerProvider, InitStep.metricExporterNew otelEndpoint true]
  match f.metricExporter with
  | some _ => (s3 ++ [InitStep.fatal "Failed to create metric exporter"], false)
  | none =>
  let s4 := s3 ++ [InitStep.setMeterProvider,
    InitStep.int64Counter "http.server.requests" "Number of HTTP requests" "\x7brequests\x7d"]
  match f.counter with
  | some _ => (s4 ++ [InitStep.fatal "Failed to create request counter"], false)
  | none =>
  let s5 := s4 ++ [InitStep.float64Histogram "http.server.duration" "Duration of HTTP requests" "ms"]
  match f.histogram with
  | some _ => (s5 ++ [InitStep.fatal "Failed to create request duration histogram"], false)
  | none => (s5, true)

/-- The addresses handed to `otlptracegrpc.WithEndpoint`. -/
def traceEndpoints : List InitStep → List String
  | [] => []
  | InitStep.traceExporterNew e _ :: rest => e :: traceEndpoints rest
  | _ :: rest => traceEndpoints rest

/-- The addresses handed to `otlpmetricgrpc.WithEndpoint`. -/
def metricEndpoints : List InitStep → List String
  | [] => []
  | InitStep.metricExporterNew e _ :: rest => e :: metricEndpoints rest
  | _ :: rest => metricEndpoints rest

/-- An environment in which only `OTEL_EXPORTER_OTLP_ENDPOINT` may be set. -/
def envWith (v : Option String) : Env :=
  fun k => if k = "OTEL_EXPORTER_OTLP_ENDPOINT" then v else none

/-! ## Request handling: telemetry world, gin context, handlers -/

/-- The value of an attribute or of a log field. -/
inductive AttrValue where
  | str (s : String)
  | int (n : Int)
  | bool (b : Bool)
  deriving DecidableEq, Repr

/-- A list of `attribute.KeyValue` (or of zap fields). -/
abbrev Attrs := List (String × AttrValue)

/-- What a request does to the process-wide tracer, instruments and logger. -/
inductive TelemetryEvent where
  | spanStart (id : Nat) (name : String)
  | spanSetAttributes (id : Nat) (attrs : Attrs)
  | spanEnd (id : Nat)
  | counterAdd (value : Int) (attrs : Attrs)
  | histogramRecord (value : Int) (attrs : Attrs)
  | logInfo (msg : String) (fields : Attrs)
  deriving DecidableEq, Repr

/-- The surroundings of one request flow: the monotonic clock in nanoseconds, the
values the random source will give next (`rand.Intn(n)` is the next raw value
modulo `n`; `randBelow` is the next outcome of `rand.Float32() < 0.05`), the
number of the next span `tracer.Start` creates, and the telemetry calls so far. -/
structure World where
  clock : Nat
  randInts : List Nat
  randBelow : List Bool
  nextSpan : Nat
  events : List TelemetryEvent
  deriving DecidableEq, Repr

/-- The type `User` of the source; `CreatedAt` in nanoseconds. -/
structure User where
  ID : Int
  Name : String
  Email : String
  CreatedAt : Int
  deriving DecidableEq, Repr

/-- A value stored in a `gin.H`. -/
inductive JSONValue where
  | str (s : String)
  | int (n : Int)
  | time (t : Int)
  | users (us : List User)
  deriving DecidableEq, Repr

/-- What was handed to the response writer: a `gin.H` map (fields in source
order), a user, or plain text. -/
inductive Body where
  | h (fields : List (String × JSONValue))
  | user (u : User)
  | text (s : String)
  deriving DecidableEq, Repr

/-- The `gin.Context` of a request together with its surroundings. -/
structure Context where
  method : String
  path : String
  clientIP : String
  fullPath : String
  params : List (String × String)
  status : Nat
  body : Option Body
  world : World
  deriving DecidableEq, Repr

/-- How a handler call ends: it returns, or it panics and unwinds. -/
inductive Exit where
  | returned
  | panicked (value : String)
  deriving DecidableEq, Repr

/-- A `gin.HandlerFunc`, run to its end. -/
abbrev HandlerFunc := Context → Context × Exit

/-- The call `tracer.Start(ctx, name)`: a new span. -/
def tracerStart (name : String) (w : World) : Nat × World :=
  (w.nextSpan,
   { w with nextSpan := w.nextSpan + 1,
            events := w.events ++ [TelemetryEvent.spanStart w.nextSpan name] })

/-- The call `span.End()`. -/
def spanEnd (id : Nat) (w : World) : World :=
  { w with events := w.events ++ [TelemetryEvent.spanEnd id] }

/-- The call `span.SetAttributes(attrs...)`. -/
def spanSetAttributes (id : Nat) (attrs : Attrs) (w : World) : World :=
  { w with events := w.events ++ [TelemetryEvent.spanSetAttributes id attrs] }

/-- The call `rand.Intn(n)`: the next raw value modulo `n` (0 once the list of
raw values is used up). -/
def randIntn (n : Nat) (w : World) : Nat × World :=
  match w.randInts with
  | [] => (0, w)
  | r :: rest => (r % n, { w with randInts := rest })

/-- The comparison `rand.Float32() < 0.05`: its next outcome (`false` once the
list of outcomes is used up). -/
def randFloat32Below (w : World) : Bool × World :=
  match w.randBelow with
  | [] => (false, w)
  | b :: rest => (b, { w with randBelow := rest })

/-- The call `time.Sleep(time.Duration(n) * time.Millisecond)`. -/
def sleepMillis (n : Nat) (w : World) : World :=
  { w with clock := w.clock + n * 1000000 }

/-- One hour in nanoseconds. -/
def hour : Int := 3600 * 1000000000

/-- The call `c.JSON(code, obj)`. -/
def Context.json (code : Nat) (b : Body) (c : Context) : Context :=
  { c with status := code, body := some b }

/-- The call `c.Param(key)`: the value of the path parameter, `""` without one. -/
def Context.param (c : Context) (key : String) : String :=
  match c.params.find? (fun kv => kv.1 = key) with
  | some kv => kv.2
  | none => ""

/-- Source function `fetchUsers`; the deferred `span.End()` runs last. -/
def fetchUsers (w : World) : List User × World :=
  let (span, w) := tracerStart "fetchUsers" w
  let (n, w) := randIntn 50 w
  let w := sleepMillis n w
  let users : List User :=
    [ { ID := 1, Name := "Alice", Email := "alice@example.com", CreatedAt := w.clock - 24 * hour },
      { ID := 2, Name := "Bob", Email := "bob@example.com", CreatedAt := w.clock - 48 * hour },
      { ID := 3, Name := "Charlie", Email := "charlie@example.com", CreatedAt := w.clock - 72 * hour } ]
  let w := spanSetAttributes span [("db.rows_returned", AttrValue.int users.length)] w
  (users, spanEnd span w)

/-- The map literal of `fetchUserByID`, as an association list. -/
def mockUsers (now : Int) : List (String × User) :=
  [ ("1", { ID := 1, Name := "Alice", Email := "alice@example.com", CreatedAt := now }),
    ("2", { ID := 2, Name := "Bob", Email := "bob@example.com", CreatedAt := now }),
    ("3", { ID := 3, Name := "Charlie", Email := "charlie@example.com", CreatedAt := now }) ]

/-- Source function `fetchUserByID`; `none` is the nil pointer `users[id]` gives
for a missing key. -/
def fetchUserByID (id : String) (w : World) : Option User × World :=
  let (span, w) := tracerStart "fetchUserByID" w
  let w := spanSetAttributes span [("db.query_id", AttrValue.str id)] w
  let (n, w) := randIntn 100 w
  let w := sleepMillis n w
  let users := mockUsers w.clock
  ((users.lookup id), spanEnd span w)

/-- Source function `healthHandler`. -/
def healthHandler (c : Context) : Context :=
  c.json 200 (Body.h [("status", JSONValue.str "healthy"), ("service", JSONValue.str "backend"),
    ("time", JSONValue.time c.world.clock)])

/-- Source function `getUsersHandler`. -/
def getUsersHandler (c : Context) : Context :=
  let (span, w) := tracerStart "getUsersHandler" c.world
  let (users, w) := fetchUsers w
  let w := spanSetAttributes span [("user_count", AttrValue.int users.length)] w
  let c := { c with world := w }
  let c := c.json 200 (Body.h [("users", JSONValue.users users), ("count", JSONValue.int users.length)])
  { c with world := spanEnd span c.world }

/-- Source function `getUserHandler`; both returns pass through the deferred
`span.End()`. -/
def getUserHandler (c : Context) : Context :=
  let (span, w) := tracerStart "getUserHandler" c.world
  let id := c.param "id"
  let w := spanSetAttributes span [("user_id", AttrValue.str id)] w
  let (user, w) := fetchUserByID id w
  let c := { c with world := w }
  let c :=
    match user with
    | none => c.json 404 (Body.h [("error", JSONValue.str "User not found")])
    | some u => c.json 200 (Body.user u)
  { c with world := spanEnd span c.world }

/-- Source function `processHandler`; both returns pass through the deferred
`span.End()`. -/
def processHandler (c : Context) : Context :=
  let (span, w) := tracerStart "processHandler" c.world
  let (n, w) := randIntn 100 w
  let w := sleepMillis n w
  let (failed, w) := randFloat32Below w
  let c := { c with world := w }
  let c :=
    if failed then
      let c := { c with world := spanSetAttributes span [("error", AttrValue.bool true)] c.world }
      c.json 500 (Body.h [("error", JSONValue.str "Processing failed")])
    else
      c.json 200 (Body.h [("message", JSONValue.str "Processing completed"),
        ("status", JSONValue.str "success")])
  { c with world := spanEnd span c.world }

/-! ## Middleware and router (`setupRouter`, `loggingMiddleware`, `metricsMiddleware`) -/

/-- The call `requestCounter.Add(ctx, value, metric.WithAttributes(attrs...))`. -/
def requestCounterAdd (value : Int) (attrs : Attrs) (w : World) : World :=
  { w with events := w.events ++ [TelemetryEvent.counterAdd value attrs] }

/-- The call `requestDuration.Record(ctx, value, metric.WithAttributes(attrs...))`;
the value is the whole number of milliseconds that the source converts to
`float64`. -/
def requestDurationRecord (value : Int) (attrs : Attrs) (w : World) : World :=
  { w with events := w.events ++ [TelemetryEvent.histogramRecord value attrs] }

/-- The call `logger.Info(msg, fields...)`. -/
def loggerInfo (msg : String) (fields : Attrs) (w : World) : World :=
  { w with events := w.events ++ [TelemetryEvent.logInfo msg fields] }

/-- Source function `metricsMiddleware`; `next` is what `c.Next()` runs.  The
recording code follows `c.Next()` without a `defer`, so a panic of `next` unwinds
past it. -/
def metricsMiddleware (next : HandlerFunc) : HandlerFunc := fun c =>
  let start := c.world.clock
  match next c with
  | (c, Exit.panicked v) => (c, Exit.panicked v)
  | (c, Exit.returned) =>
    let duration := (c.world.clock - start) / 1000000
    let attrs : Attrs :=
      [ ("method", AttrValue.str c.method),
        ("path", AttrValue.str c.fullPath),
        ("status", AttrValue.int c.status) ]
    let w := requestCounterAdd 1 attrs c.world
    let w := requestDurationRecord duration attrs w
    ({ c with world := w }, Exit.returned)

/-- Source function `loggingMiddleware`; the duration field is in nanoseconds. -/
def loggingMiddleware (next : HandlerFunc) : HandlerFunc := fun c =>
  let start := c.world.clock
  let path := c.path
  match next c with
  | (c, Exit.panicked v) => (c, Exit.panicked v)
  | (c, Exit.returned) =>
    let duration := c.world.clock - start
    let w := loggerInfo "HTTP request"
      [ ("method", AttrValue.str c.method),
        ("path", AttrValue.str path),
        ("status", AttrValue.int c.status),
        ("duration", AttrValue.int duration),
        ("client_ip", AttrValue.str c.clientIP) ] c.world
    ({ c with world := w }, Exit.returned)

/-- Modelled from the spec: `otelgin.Middleware` (library code, not among the sources).
Spec 4.2: on entry it starts a span and tags it with the method and the route
template, it invokes the wrapped handler, and on exit (success, error or panic)
it ends the span. -/
def otelginMiddleware (_service : String) (next : HandlerFunc) : HandlerFunc := fun c =>
  let (span, w) := tracerStart c.fullPath c.world
  let w := spanSetAttributes span
    [("http.method", AttrValue.str c.method), ("http.route", AttrValue.str c.fullPath)] w
  match next { c with world := w } with
  | (c, Exit.panicked v) => ({ c with world := spanEnd span c.world }, Exit.panicked v)
  | (c, Exit.returned) => ({ c with world := spanEnd span c.world }, Exit.returned)

/-- Modelled from the spec: `gin.Recovery` (library code, not among the sources), the
"panic-equivalent recovery" of spec 4.2: a panic of the wrapped handler is
recovered and answered with status 500 unless the response was already written. -/
def ginRecovery (next : HandlerFunc) : HandlerFunc := fun c =>
  match next c with
  | (c, Exit.panicked _) =>
    ((if c.body.isSome then c else { c with status := 500 }), Exit.returned)
  | (c, Exit.returned) => (c, Exit.returned)

/-- Cut a path at every `/`: `"/api/users/42"` gives `["", "api", "users", "42"]`. -/
def splitSlash : List Char → List (List Char)
  | [] => [[]]
  | ch :: rest =>
    if ch = '/' then [] :: splitSlash rest
    else
      match splitSlash rest with
      | [] => [[ch]]
      | seg :: segs => (ch :: seg) :: segs

/-- Modelled from the spec: route matching of the gin router (library code, not
among the sources), for templates made of literal segments and `:name` parameters.  A
literal segment matches itself, a parameter matches any non-empty segment; the
result is the list of parameter values. -/
def matchSegments : List (List Char) → List (List Char) → Option (List (String × String))
  | [], [] => some []
  | (':' :: name) :: ps, seg :: segs =>
    if seg = [] then none
    else (matchSegments ps segs).map (fun rest => (String.mk name, String.mk seg) :: rest)
  | p :: ps, seg :: segs =>
    if p = seg then matchSegments ps segs else none
  | _, _ => none

/-- A registered route: method, template and handler. -/
structure Route where
  method : String
  template : String
  handler : Context → Context

/-- The router under construction: the middleware given to `router.Use` and the
routes, both in registration order. -/
structure Engine where
  middleware : List (HandlerFunc → HandlerFunc)
  routes : List Route

/-- The call `gin.New()`. -/
def ginNew : Engine :=
  { middleware := [], routes := [] }

/-- The call `router.Use(m)`. -/
def Engine.use (e : Engine) (m : HandlerFunc → HandlerFunc) : Engine :=
  { e with middleware := e.middleware ++ [m] }

/-- The calls `router.GET(template, h)` and `router.POST(template, h)`. -/
def Engine.handle (e : Engine) (method template : String) (h : Context → Context) : Engine :=
  { e with routes := e.routes ++ [{ method := method, template := template, handler := h }] }

/-- Source function `setupRouter`. -/
def setupRouter : Engine :=
  let router := ginNew
  let router := router.use ginRecovery
  let router := router.use (otelginMiddleware "backend")
  let router := router.use loggingMiddleware
  let router := router.use metricsMiddleware
  let router := router.handle "GET" "/health" healthHandler
  let router := router.handle "GET" "/api/users" getUsersHandler
  let router := router.handle "GET" "/api/users/:id" getUserHandler
  let router := router.handle "POST" "/api/process" processHandler
  router

/-- The first route of the list registered for `method` whose template matches
`path`, with the parameter values.  No two templates of `setupRouter` match the
same path, so the order of the search does not matter there. -/
def findRoute (routes : List Route) (method path : String) :
    Option (Route × List (String × String)) :=
  match routes with
  | [] => none
  | r :: rest =>
    if r.method = method then
      match matchSegments (splitSlash r.template.data) (splitSlash path.data) with
      | some ps => some (r, ps)
      | none => findRoute rest method path
    else findRoute rest method path

/-- The handler chain of a request: the middleware in registration order, the
first one outermost, around the final handler. -/
def Engine.chain (e : Engine) (final : HandlerFunc) : HandlerFunc :=
  e.middleware.foldr (fun m h => m h) final

/-- A registered handler run as the last element of a chain. -/
def runHandler (h : Context → Context) : HandlerFunc :=
  fun c => (h c, Exit.returned)

/-- Modelled from the spec: request dispatch of the gin engine (library code, not
among the sources).  A request that matches a registered route runs the chain of that
route with `c.FullPath()` set to the template and the parameters bound.  A
request that matches no route never reaches a registered handler (gin answers it
itself); it is outside this model: `none`. -/
def Engine.serveHTTP (e : Engine) (c : Context) : Option (Context × Exit) :=
  match findRoute e.routes c.method c.path with
  | some (r, ps) =>
    some (e.chain (runHandler r.handler) { c with fullPath := r.template, params := ps })
  | none => none

/-- A request as it reaches the router: nothing written yet, status 200. -/
def newRequest (method path : String) (w : World) : Context :=
  { method := method, path := path, clientIP := "10.0.0.1", fullPath := "", params := [],
    status := 200, body := none, world := w }

/-- A world at the start of a request flow. -/
def World.start (clock : Nat) (ints : List Nat) (below : List Bool) : World :=
  { clock := clock, randInts := ints, randBelow := below, nextSpan := 0, events := [] }

/-- The events a run appended to the events it started with. -/
def newEvents (before after : World) : List TelemetryEvent :=
  after.events.drop before.events.length

/-- The numbers of the spans started in a list of events. -/
def startedSpans : List TelemetryEvent → List Nat
  | [] => []
  | TelemetryEvent.spanStart id _ :: rest => id :: startedSpans rest
  | _ :: rest => startedSpans rest

/-- The numbers of the spans ended in a list of events. -/
def endedSpans : List TelemetryEvent → List Nat
  | [] => []
  | TelemetryEvent.spanEnd id :: rest => id :: endedSpans rest
  | _ :: rest => endedSpans rest

/-- Every span started in a list of events is a span of its own and is ended
exactly once in it, and nothing else is ended. -/
def SpansEndedOnce (evs : List TelemetryEvent) : Prop :=
  (startedSpans evs).Nodup
    ∧ (∀ id ∈ startedSpans evs, (endedSpans evs).count id = 1)
    ∧ (∀ id ∈ endedSpans evs, id ∈ startedSpans evs)

instance decSpansEndedOnce (evs : List TelemetryEvent) : Decidable (SpansEndedOnce evs) := by
  unfold SpansEndedOnce
  infer_instance

/-- The attribute lists of the counter increments in a list of events, each with
the amount added. -/
def counterAdds : List TelemetryEvent → List (Int × Attrs)
  | [] => []
  | TelemetryEvent.counterAdd v a :: rest => (v, a) :: counterAdds rest
  | _ :: rest => counterAdds rest

/-- The attribute lists of the histogram observations in a list of events. -/
def histogramRecords : List TelemetryEvent → List Attrs
  | [] => []
  | TelemetryEvent.histogramRecord _ a :: rest => a :: histogramRecords rest
  | _ :: rest => histogramRecords rest

/-- The value of the attribute `key`, when present. -/
def attrOf (key : String) (attrs : Attrs) : Option AttrValue :=
  attrs.lookup key

/-- The route labels (attribute `path`) of the counter increments and of the
histogram observations in a list of events. -/
def routeLabels (evs : List TelemetryEvent) : List (Option AttrValue) :=
  (counterAdds evs).map (fun r => attrOf "path" r.2)
    ++ (histogramRecords evs).map (fun a => attrOf "path" a)

/-- The context the tracing middleware hands to the rest of the chain: its span
is started and tagged. -/
def enterSpan (c : Context) : Context :=
  let w := spanSetAttributes c.world.nextSpan
    [("http.method", AttrValue.str c.method), ("http.route", AttrValue.str c.fullPath)]
    (tracerStart c.fullPath c.world).2
  { c with world := w }

/-- A handler that panics at once. -/
def panickingHandler : HandlerFunc :=
  fun c => (c, Exit.panicked "boom")


/-! ## Process lifecycle (`main`, lines 45-85) -/

/-- The steps of `main` that matter for the shutdown order. -/
inductive MainEvent where
  | initLogger
  | initOpenTelemetry
  | setupRouter
  | goListenAndServe
  | signalNotify
  | signalReceived
  | loggerInfo (msg : String)
  | srvShutdownCalled (timeoutSeconds : Nat)
  | srvShutdownReturned (err : Option String)
  | loggerFatal (msg : String)
  | cancel
  | telemetryShutdown (result : Option String)
  | loggerSync
  deriving DecidableEq, Repr

/-- What the surroundings decide in one execution of `main`: whether building
the logger fails, the environment and the failures of the telemetry
initialisation, whether and when the listener goroutine ends
the process through `logger.Fatal` (after so many further steps of `main`),
whether a SIGINT or SIGTERM ever arrives, the result of `srv.Shutdown`, and the
providers. -/
structure Run where
  loggerErr : Option String
  env : Env
  initFailures : InitFailures
  serveFatalAfter : Option Nat
  signal : Bool
  srvShutdownErr : Option String
  providers : Providers

/-- The part of `main` after the `go` statement (lines 71-85).  `logger.Fatal`
exits the process, so no deferred call runs after it; on the normal return the
deferred calls run last registered first: `cancel()`, `shutdown(ctx)`,
`logger.Sync()`. -/
def mainAfterGo (r : Run) : List MainEvent :=
  [MainEvent.signalNotify] ++
  (if r.signal then
    [MainEvent.signalReceived, MainEvent.loggerInfo "Shutting down server...",
     MainEvent.srvShutdownCalled 5, MainEvent.srvShutdownReturned r.srvShutdownErr] ++
    (match r.srvShutdownErr with
     | some _ => [MainEvent.loggerFatal "Server forced to shutdown"]
     | none =>
       [MainEvent.loggerInfo "Server exited", MainEvent.cancel,
        MainEvent.telemetryShutdown (shutdown r.providers ProviderState.fresh).1,
        MainEvent.loggerSync])
  else [])

/-- Source function `main`: the steps of one execution, in order.  A failure in
`initLogger` or in `initOpenTelemetry` ends the process there (`log.Fatalf`,
`logger.Fatal`). -/
def main (r : Run) : List MainEvent :=
  [MainEvent.initLogger] ++
  (match r.loggerErr with
   | some _ => []
   | none =>
     [MainEvent.initOpenTelemetry] ++
     (match initOpenTelemetry r.env r.initFailures with
      | (_, false) => []
      | (_, true) =>
        [MainEvent.setupRouter, MainEvent.goListenAndServe] ++
        (match r.serveFatalAfter with
         | none => mainAfterGo r
         | some n =>
           if n < (mainAfterGo r).length then
             (mainAfterGo r).take n ++ [MainEvent.loggerFatal "Failed to start server"]
           else mainAfterGo r)))

/-- Scan of a list of steps: no telemetry shutdown occurs before a return of
`srv.Shutdown` (`seen`: one has occurred already). -/
def shutdownAfterListener (seen : Bool) : List MainEvent → Bool
  | [] => true
  | MainEvent.srvShutdownReturned _ :: rest => shutdownAfterListener true rest
  | MainEvent.telemetryShutdown _ :: rest => seen && shutdownAfterListener seen rest
  | _ :: rest => shutdownAfterListener seen rest

/-- An execution in which everything succeeds and the signal arrives. -/
def cleanRun : Run :=
  { loggerErr := none, env := envWith none, initFailures := InitFailures.noFailure,
    serveFatalAfter := none,
    signal := true, srvShutdownErr := none, providers := constProviders none none }

/-! # Theorems

## The shutdown closure -/

/-- The closure, case by case on the result of the trace provider. -/
theorem shutdown_eq (p : Providers) (s : ProviderState) :
    shutdown p s =
      match p.traceResult s.traceCalls with
      | some e =>
        (some e, { traceCalls := s.traceCalls + 1, metricCalls := s.metricCalls,
                   calls := s.calls ++ [Call.traceShutdown] })
      | none =>
        (p.metricResult s.metricCalls,
         { traceCalls := s.traceCalls + 1, metricCalls := s.metricCalls + 1,
           calls := s.calls ++ [Call.traceShutdown, Call.metricShutdown] }) := by
  unfold shutdown tracerProviderShutdown meterProviderShutdown
  cases ht : p.traceResult s.traceCalls with
  | some e => simp
  | none =>
    cases hm : p.metricResult s.metricCalls with
    | some e => simp [hm]
    | none => simp [hm]

/-- The provider calls of one invocation. -/
theorem shutdownCalls_eq (p : Providers) (s : ProviderState) :
    shutdownCalls p s =
      match p.traceResult s.traceCalls with
      | some _ => [Call.traceShutdown]
      | none => [Call.traceShutdown, Call.metricShutdown] := by
  unfold shutdownCalls
  rw [shutdown_eq]
  cases p.traceResult s.traceCalls <;> simp

/-- C1 (counterexample): when the trace provider's Shutdown returns an error, the
closure returns that error at once and the metric provider's Shutdown is not
invoked. -/
theorem shutdown_trace_error_skips_meter_provider :
    shutdown (constProviders (some "trace export failed") none) ProviderState.fresh
        = (some "trace export failed",
           { traceCalls := 1, metricCalls := 0, calls := [Call.traceShutdown] })
      ∧ Call.metricShutdown ∉
          shutdownCalls (constProviders (some "trace export failed") none) ProviderState.fresh := by
  decide

/-- C1 (amended): for every pair of outcomes, one invocation of the closure
invokes the trace provider's Shutdown exactly once; it invokes the metric
provider's Shutdown, once, exactly when the trace provider's Shutdown returned
nil, whatever the metric provider then returns; when the trace provider's
Shutdown returned an error the closure stops there and returns that error. -/
theorem shutdown_invokes_meter_provider_iff_trace_ok (p : Providers) (s : ProviderState) :
    (shutdownCalls p s).count Call.traceShutdown = 1
      ∧ (Call.metricShutdown ∈ shutdownCalls p s ↔ p.traceResult s.traceCalls = none)
      ∧ (shutdownCalls p s).count Call.metricShutdown
          = (if p.traceResult s.traceCalls = none then 1 else 0)
      ∧ (∀ e, p.traceResult s.traceCalls = some e →
          shutdownCalls p s = [Call.traceShutdown] ∧ (shutdown p s).1 = some e)
      ∧ (p.traceResult s.traceCalls = none →
          shutdownCalls p s = [Call.traceShutdown, Call.metricShutdown]
            ∧ (shutdown p s).1 = p.metricResult s.metricCalls) := by
  rw [shutdownCalls_eq, shutdown_eq]
  cases ht : p.traceResult s.traceCalls with
  | some e =>
    refine ⟨by simp [List.count_cons], by simp, by simp [List.count_cons], ?_, ?_⟩
    · intro e' h
      cases h
      exact ⟨rfl, rfl⟩
    · intro h; cases h
  | none =>
    refine ⟨by simp [List.count_cons], by simp, by simp [List.count_cons], ?_, ?_⟩
    · intro e' h; cases h
    · intro _; exact ⟨rfl, rfl⟩

/-- C1 (witness): with both providers succeeding both Shutdown calls are issued,
trace first; with a failing trace provider only its Shutdown is issued. -/
theorem shutdown_invokes_meter_provider_cases :
    shutdownCalls (constProviders none (some "metric export failed")) ProviderState.fresh
        = [Call.traceShutdown, Call.metricShutdown]
      ∧ shutdownCalls (constProviders (some "trace export failed") none) ProviderState.fresh
        = [Call.traceShutdown] :=
  ⟨((shutdown_invokes_meter_provider_iff_trace_ok
      (constProviders none (some "metric export failed")) ProviderState.fresh).2.2.2.2 rfl).1,
   ((shutdown_invokes_meter_provider_iff_trace_ok
      (constProviders (some "trace export failed") none) ProviderState.fresh).2.2.2.1
        "trace export failed" rfl).1⟩

/-- C2: one invocation of the closure issues the trace provider's Shutdown first
and the metric provider's Shutdown, if at all, after it; the result is the trace
provider's error if that call failed, otherwise the metric provider's result, and
it is nil exactly when both calls returned nil. -/
theorem shutdown_order_and_first_error (p : Providers) (s : ProviderState) :
    (shutdownCalls p s = [Call.traceShutdown]
        ∨ shutdownCalls p s = [Call.traceShutdown, Call.metricShutdown])
      ∧ (∀ pre post, shutdownCalls p s = pre ++ Call.metricShutdown :: post →
          Call.traceShutdown ∈ pre)
      ∧ (∀ e, p.traceResult s.traceCalls = some e → (shutdown p s).1 = some e)
      ∧ (p.traceResult s.traceCalls = none →
          (shutdown p s).1 = p.metricResult s.metricCalls
            ∧ shutdownCalls p s = [Call.traceShutdown, Call.metricShutdown])
      ∧ ((shutdown p s).1 = none ↔
          p.traceResult s.traceCalls = none ∧ p.metricResult s.metricCalls = none) := by
  rw [shutdownCalls_eq, shutdown_eq]
  cases ht : p.traceResult s.traceCalls with
  | some e =>
    refine ⟨Or.inl rfl, ?_, ?_, ?_, ?_⟩
    · intro pre post h
      cases pre with
      | nil => simp at h
      | cons a pre => simp at h
    · intro e' h; simpa using h
    · intro h; cases h
    · simp
  | none =>
    refine ⟨Or.inr rfl, ?_, ?_, ?_, ?_⟩
    · intro pre post h
      cases pre with
      | nil => simp at h
      | cons a pre =>
        simp at h
        simp [h.1]
    · intro e' h; cases h
    · intro _; exact ⟨rfl, rfl⟩
    · simp

/-- C8 (counterexample): with a meter provider that reports an error on a repeated
Shutdown, the first invocation of the closure returns nil and the second returns
that error. -/
theorem shutdown_twice_returns_error :
    (shutdown sdkProviders ProviderState.fresh).1 = none
      ∧ (shutdown sdkProviders (shutdown sdkProviders ProviderState.fresh).2).1
          = some "reader is shutdown" := by
  decide

/-- C8 (amended): the closure has no guard of its own.  A second invocation
invokes the trace provider's Shutdown again and, if that returns nil, the metric
provider's Shutdown again; it returns nil exactly when these repeated calls
return nil. -/
theorem shutdown_twice_repeats_calls (p : Providers) (s : ProviderState) :
    Call.traceShutdown ∈ shutdownCalls p (shutdown p s).2
      ∧ (p.traceResult (shutdown p s).2.traceCalls = none →
          shutdownCalls p (shutdown p s).2 = [Call.traceShutdown, Call.metricShutdown])
      ∧ ((shutdown p (shutdown p s).2).1 = none ↔
          p.traceResult (shutdown p s).2.traceCalls = none
            ∧ p.metricResult (shutdown p s).2.metricCalls = none)
      ∧ (shutdown p s).2.traceCalls = s.traceCalls + 1
      ∧ ((shutdown p s).1 = none → (shutdown p s).2.metricCalls = s.metricCalls + 1) := by
  refine ⟨?_, ?_, ?_, ?_, ?_⟩
  · rw [shutdownCalls_eq]
    cases p.traceResult (shutdown p s).2.traceCalls <;> simp
  · intro h
    rw [shutdownCalls_eq, h]
  · rw [shutdown_eq p (shutdown p s).2]
    cases p.traceResult (shutdown p s).2.traceCalls <;> simp
  · rw [shutdown_eq]
    cases p.traceResult s.traceCalls <;> simp
  · rw [shutdown_eq]
    cases p.traceResult s.traceCalls <;> simp

/-! ## Exporter configuration -/

/-- The address computed at lines 102-105. -/
theorem initOpenTelemetry_steps (env : Env) (f : InitFailures) (e : String)
    (he : e = (if getenv env "OTEL_EXPORTER_OTLP_ENDPOINT" = "" then defaultEndpoint
                else getenv env "OTEL_EXPORTER_OTLP_ENDPOINT")) :
    (traceEndpoints (initOpenTelemetry env f).1 = [] ∨ traceEndpoints (initOpenTelemetry env f).1 = [e])
      ∧ (metricEndpoints (initOpenTelemetry env f).1 = [] ∨ metricEndpoints (initOpenTelemetry env f).1 = [e])
      ∧ ((initOpenTelemetry env f).2 = true →
          traceEndpoints (initOpenTelemetry env f).1 = [e]
            ∧ metricEndpoints (initOpenTelemetry env f).1 = [e]) := by
  subst he
  unfold initOpenTelemetry
  cases f.resource <;> cases f.traceExporter <;> cases f.metricExporter <;>
    cases f.counter <;> cases f.histogram <;>
    simp [traceEndpoints, metricEndpoints]

/-- Which exporters are built: the trace exporter as soon as the resource was
created, the metric exporter as soon as the trace exporter was created too, each
with the address computed at lines 102-105; the function returns exactly when no
constructor fails. -/
theorem initOpenTelemetry_built (env : Env) (f : InitFailures) (e : String)
    (he : e = (if getenv env "OTEL_EXPORTER_OTLP_ENDPOINT" = "" then defaultEndpoint
                else getenv env "OTEL_EXPORTER_OTLP_ENDPOINT")) :
    (f.resource = none → traceEndpoints (initOpenTelemetry env f).1 = [e])
      ∧ (f.resource = none → f.traceExporter = none →
          metricEndpoints (initOpenTelemetry env f).1 = [e])
      ∧ ((initOpenTelemetry env f).2 = true ↔
          f.resource = none ∧ f.traceExporter = none ∧ f.metricExporter = none
            ∧ f.counter = none ∧ f.histogram = none) := by
  subst he
  obtain ⟨r, t, m, c, h⟩ := f
  unfold initOpenTelemetry
  cases r <;> cases t <;> cases m <;> cases c <;> cases h <;>
    simp [traceEndpoints, metricEndpoints]

/-- C10: whatever the environment, the trace exporter is built as soon as the
resource was created and the metric exporter as soon as the trace exporter was
created too, and the address handed to each is the value of
OTEL_EXPORTER_OTLP_ENDPOINT when that is set and not empty, and the default
address when it is unset or empty; no exporter ever receives another address,
both receive the same one, and initialisation returns exactly when no
constructor fails, with both exporters built. -/
theorem initOpenTelemetry_endpoint (env : Env) (f : InitFailures) :
    (∀ v, env "OTEL_EXPORTER_OTLP_ENDPOINT" = some v → v ≠ "" →
        (f.resource = none → traceEndpoints (initOpenTelemetry env f).1 = [v])
          ∧ (f.resource = none → f.traceExporter = none →
              metricEndpoints (initOpenTelemetry env f).1 = [v])
          ∧ (∀ a ∈ traceEndpoints (initOpenTelemetry env f).1, a = v)
          ∧ (∀ a ∈ metricEndpoints (initOpenTelemetry env f).1, a = v)
          ∧ ((initOpenTelemetry env f).2 = true →
              traceEndpoints (initOpenTelemetry env f).1 = [v]
                ∧ metricEndpoints (initOpenTelemetry env f).1 = [v]))
      ∧ ((env "OTEL_EXPORTER_OTLP_ENDPOINT" = none ∨ env "OTEL_EXPORTER_OTLP_ENDPOINT" = some "") →
        (f.resource = none → traceEndpoints (initOpenTelemetry env f).1
            = ["otel-collector.observability.svc.cluster.local:4317"])
          ∧ (f.resource = none → f.traceExporter = none →
              metricEndpoints (initOpenTelemetry env f).1
                = ["otel-collector.observability.svc.cluster.local:4317"])
          ∧ (∀ a ∈ traceEndpoints (initOpenTelemetry env f).1,
            a = "otel-collector.observability.svc.cluster.local:4317")
          ∧ (∀ a ∈ metricEndpoints (initOpenTelemetry env f).1,
            a = "otel-collector.observability.svc.cluster.local:4317")
          ∧ ((initOpenTelemetry env f).2 = true →
              traceEndpoints (initOpenTelemetry env f).1
                  = ["otel-collector.observability.svc.cluster.local:4317"]
                ∧ metricEndpoints (initOpenTelemetry env f).1
                  = ["otel-collector.observability.svc.cluster.local:4317"]))
      ∧ (∀ a ∈ traceEndpoints (initOpenTelemetry env f).1,
          ∀ b ∈ metricEndpoints (initOpenTelemetry env f).1, a = b)
      ∧ ((initOpenTelemetry env f).2 = true ↔
          f.resource = none ∧ f.traceExporter = none ∧ f.metricExporter = none
            ∧ f.counter = none ∧ f.histogram = none) := by
  have key := initOpenTelemetry_steps env f _ rfl
  have built := initOpenTelemetry_built env f _ rfl
  refine ⟨?_, ?_, ?_, built.2.2⟩
  · intro v hv hne
    have hg : getenv env "OTEL_EXPORTER_OTLP_ENDPOINT" = v := by simp [getenv, hv]
    rw [hg, if_neg hne] at key built
    obtain ⟨h1, h2, h3⟩ := key
    refine ⟨built.1, built.2.1, ?_, ?_, h3⟩
    · intro a ha; rcases h1 with h | h <;> rw [h] at ha <;> simp at ha; exact ha
    · intro a ha; rcases h2 with h | h <;> rw [h] at ha <;> simp at ha; exact ha
  · intro hv
    have hg : getenv env "OTEL_EXPORTER_OTLP_ENDPOINT" = "" := by
      rcases hv with hv | hv <;> simp [getenv, hv]
    rw [hg, if_pos rfl] at key built
    obtain ⟨h1, h2, h3⟩ := key
    refine ⟨built.1, built.2.1, ?_, ?_, h3⟩
    · intro a ha; rcases h1 with h | h <;> rw [h] at ha <;> simp at ha; exact ha
    · intro a ha; rcases h2 with h | h <;> rw [h] at ha <;> simp at ha; exact ha
  · obtain ⟨h1, h2, _⟩ := key
    intro a ha b hb
    rcases h1 with h | h <;> rw [h] at ha <;> simp at ha
    rcases h2 with h | h <;> rw [h] at hb <;> simp at hb
    rw [ha, hb]

/-- C10 (witness): with no failing constructor both exporters are built, with
"collector:4317" when the variable is set to it, and with the default address
when the variable is unset and when it is set to the empty string. -/
theorem initOpenTelemetry_endpoint_branches :
    (traceEndpoints (initOpenTelemetry (envWith (some "collector:4317")) InitFailures.noFailure).1
        = ["collector:4317"]
      ∧ metricEndpoints
          (initOpenTelemetry (envWith (some "collector:4317")) InitFailures.noFailure).1
        = ["collector:4317"])
      ∧ (traceEndpoints (initOpenTelemetry (envWith none) InitFailures.noFailure).1
          = ["otel-collector.observability.svc.cluster.local:4317"]
        ∧ metricEndpoints (initOpenTelemetry (envWith none) InitFailures.noFailure).1
          = ["otel-collector.observability.svc.cluster.local:4317"])
      ∧ (traceEndpoints (initOpenTelemetry (envWith (some "")) InitFailures.noFailure).1
          = ["otel-collector.observability.svc.cluster.local:4317"]
        ∧ metricEndpoints (initOpenTelemetry (envWith (some "")) InitFailures.noFailure).1
          = ["otel-collector.observability.svc.cluster.local:4317"]) :=
  ⟨⟨((initOpenTelemetry_endpoint (envWith (some "collector:4317")) InitFailures.noFailure).1
        "collector:4317" (by decide) (by decide)).1 rfl,
    ((initOpenTelemetry_endpoint (envWith (some "collector:4317")) InitFailures.noFailure).1
        "collector:4317" (by decide) (by decide)).2.1 rfl rfl⟩,
   ⟨((initOpenTelemetry_endpoint (envWith none) InitFailures.noFailure).2.1
        (Or.inl (by decide))).1 rfl,
    ((initOpenTelemetry_endpoint (envWith none) InitFailures.noFailure).2.1
        (Or.inl (by decide))).2.1 rfl rfl⟩,
   ⟨((initOpenTelemetry_endpoint (envWith (some "")) InitFailures.noFailure).2.1
        (Or.inr (by decide))).1 rfl,
    ((initOpenTelemetry_endpoint (envWith (some "")) InitFailures.noFailure).2.1
        (Or.inr (by decide))).2.1 rfl rfl⟩⟩

/-! ## Shutdown order in `main` -/

/-- The scan accepts more once a return of `srv.Shutdown` has been seen. -/
theorem shutdownAfterListener_mono (l : List MainEvent) :
    shutdownAfterListener false l = true → shutdownAfterListener true l = true := by
  induction l with
  | nil => intro _; rfl
  | cons a l ih =>
    cases a <;> simp [shutdownAfterListener] <;> exact ih

/-- Cutting an accepted sequence short by a `logger.Fatal` keeps it accepted. -/
theorem shutdownAfterListener_take (l : List MainEvent) (seen : Bool) (n : Nat) (msg : String)
    (h : shutdownAfterListener seen l = true) :
    shutdownAfterListener seen (l.take n ++ [MainEvent.loggerFatal msg]) = true := by
  induction l generalizing seen n with
  | nil => simp [shutdownAfterListener]
  | cons a l ih =>
    cases n with
    | zero => simp [shutdownAfterListener]
    | succ n =>
      cases a <;> simp [shutdownAfterListener] at h ⊢ <;> first
        | exact ih _ _ h
        | exact ⟨h.1, ih _ _ h.2⟩

/-- In an accepted sequence a telemetry shutdown has a return of `srv.Shutdown`
before it. -/
theorem shutdownAfterListener_split (pre post : List MainEvent) (res : Option String) (seen : Bool)
    (h : shutdownAfterListener seen (pre ++ MainEvent.telemetryShutdown res :: post) = true) :
    seen = true ∨ ∃ e, MainEvent.srvShutdownReturned e ∈ pre := by
  induction pre generalizing seen with
  | nil =>
    simp [shutdownAfterListener] at h
    exact Or.inl h.1
  | cons a pre ih =>
    cases a <;> simp [shutdownAfterListener] at h <;> first
      | exact Or.inl h.1
      | exact Or.inr ⟨_, List.mem_cons_self _ _⟩
      | exact (ih _ h).imp id (fun ⟨e, he⟩ => ⟨e, List.mem_cons_of_mem _ he⟩)

/-- The steps after the `go` statement are accepted by the scan. -/
theorem mainAfterGo_ordered (r : Run) (seen : Bool) :
    shutdownAfterListener seen (mainAfterGo r) = true := by
  unfold mainAfterGo
  cases r.signal <;> cases r.srvShutdownErr <;> simp [shutdownAfterListener]

/-- Every execution of `main` is accepted by the scan. -/
theorem main_ordered (r : Run) : shutdownAfterListener false (main r) = true := by
  unfold main
  cases r.loggerErr with
  | some e => simp [shutdownAfterListener]
  | none =>
  rcases h : initOpenTelemetry r.env r.initFailures with ⟨steps, ok⟩
  cases ok with
  | false => simp [shutdownAfterListener]
  | true =>
    cases r.serveFatalAfter with
    | none => simpa [shutdownAfterListener] using mainAfterGo_ordered r false
    | some n =>
      by_cases hn : n < (mainAfterGo r).length
      · simpa [shutdownAfterListener, hn] using
          shutdownAfterListener_take _ false n _ (mainAfterGo_ordered r false)
      · simpa [shutdownAfterListener, hn] using mainAfterGo_ordered r false

/-- C7: in every execution of `main`, a call of the telemetry shutdown function is
preceded by the return of `srv.Shutdown`. -/
theorem main_telemetry_shutdown_after_listener (r : Run) (pre post : List MainEvent)
    (res : Option String) (h : main r = pre ++ MainEvent.telemetryShutdown res :: post) :
    ∃ e, MainEvent.srvShutdownReturned e ∈ pre := by
  have h1 := main_ordered r
  rw [h] at h1
  rcases shutdownAfterListener_split pre post res false h1 with h2 | h2
  · cases h2
  · exact h2

/-- C7 (witness): in the execution where everything succeeds and the signal
arrives, the telemetry shutdown is reached and `srv.Shutdown` has returned
before it. -/
theorem main_telemetry_shutdown_after_listener_clean :
    ∃ e, MainEvent.srvShutdownReturned e ∈
      [MainEvent.initLogger, MainEvent.initOpenTelemetry, MainEvent.setupRouter,
       MainEvent.goListenAndServe, MainEvent.signalNotify, MainEvent.signalReceived,
       MainEvent.loggerInfo "Shutting down server...", MainEvent.srvShutdownCalled 5,
       MainEvent.srvShutdownReturned none, MainEvent.loggerInfo "Server exited",
       MainEvent.cancel] :=
  main_telemetry_shutdown_after_listener cleanRun _ [MainEvent.loggerSync] none (by decide)

/-! ## Spans of the handlers -/

/-- The events, the span counter, the clock and the result of `fetchUsers`. -/
theorem fetchUsers_world (w : World) :
    (fetchUsers w).2.events = w.events ++
        [TelemetryEvent.spanStart w.nextSpan "fetchUsers",
         TelemetryEvent.spanSetAttributes w.nextSpan [("db.rows_returned", AttrValue.int 3)],
         TelemetryEvent.spanEnd w.nextSpan]
      ∧ (fetchUsers w).2.nextSpan = w.nextSpan + 1
      ∧ w.clock ≤ (fetchUsers w).2.clock
      ∧ (fetchUsers w).1.length = 3 := by
  unfold fetchUsers
  cases h : w.randInts <;>
    simp [tracerStart, randIntn, sleepMillis, spanSetAttributes, spanEnd, h]

/-- The events, the span counter and the clock after `fetchUserByID`. -/
theorem fetchUserByID_world (id : String) (w : World) :
    (fetchUserByID id w).2.events = w.events ++
        [TelemetryEvent.spanStart w.nextSpan "fetchUserByID",
         TelemetryEvent.spanSetAttributes w.nextSpan [("db.query_id", AttrValue.str id)],
         TelemetryEvent.spanEnd w.nextSpan]
      ∧ (fetchUserByID id w).2.nextSpan = w.nextSpan + 1
      ∧ w.clock ≤ (fetchUserByID id w).2.clock := by
  unfold fetchUserByID
  cases h : w.randInts <;>
    simp [tracerStart, randIntn, sleepMillis, spanSetAttributes, spanEnd, h]

/-- The events and the context after `getUsersHandler`. -/
theorem getUsersHandler_world (c : Context) :
    (getUsersHandler c).world.events = c.world.events ++
        [TelemetryEvent.spanStart c.world.nextSpan "getUsersHandler",
         TelemetryEvent.spanStart (c.world.nextSpan + 1) "fetchUsers",
         TelemetryEvent.spanSetAttributes (c.world.nextSpan + 1)
           [("db.rows_returned", AttrValue.int 3)],
         TelemetryEvent.spanEnd (c.world.nextSpan + 1),
         TelemetryEvent.spanSetAttributes c.world.nextSpan [("user_count", AttrValue.int 3)],
         TelemetryEvent.spanEnd c.world.nextSpan]
      ∧ (getUsersHandler c).world.nextSpan = c.world.nextSpan + 2
      ∧ (getUsersHandler c).status = 200
      ∧ (getUsersHandler c).method = c.method
      ∧ (getUsersHandler c).fullPath = c.fullPath := by
  unfold getUsersHandler fetchUsers
  cases h : c.world.randInts <;>
    simp [tracerStart, randIntn, sleepMillis, spanSetAttributes, spanEnd, Context.json, h]

/-- The events and the context after `getUserHandler`, on both returns. -/
theorem getUserHandler_world (c : Context) :
    (getUserHandler c).world.events = c.world.events ++
        [TelemetryEvent.spanStart c.world.nextSpan "getUserHandler",
         TelemetryEvent.spanSetAttributes c.world.nextSpan
           [("user_id", AttrValue.str (c.param "id"))],
         TelemetryEvent.spanStart (c.world.nextSpan + 1) "fetchUserByID",
         TelemetryEvent.spanSetAttributes (c.world.nextSpan + 1)
           [("db.query_id", AttrValue.str (c.param "id"))],
         TelemetryEvent.spanEnd (c.world.nextSpan + 1),
         TelemetryEvent.spanEnd c.world.nextSpan]
      ∧ (getUserHandler c).world.nextSpan = c.world.nextSpan + 2
      ∧ (getUserHandler c).method = c.method
      ∧ (getUserHandler c).fullPath = c.fullPath := by
  unfold getUserHandler fetchUserByID
  cases h : c.world.randInts <;>
    simp only [tracerStart, randIntn, sleepMillis, spanSetAttributes, spanEnd, Context.json, h] <;>
    split <;> simp

/-- The events and the context after `processHandler`, on both returns. -/
theorem processHandler_world (c : Context) :
    ((processHandler c).world.events = c.world.events ++
        [TelemetryEvent.spanStart c.world.nextSpan "processHandler",
         TelemetryEvent.spanEnd c.world.nextSpan]
      ∨ (processHandler c).world.events = c.world.events ++
        [TelemetryEvent.spanStart c.world.nextSpan "processHandler",
         TelemetryEvent.spanSetAttributes c.world.nextSpan [("error", AttrValue.bool true)],
         TelemetryEvent.spanEnd c.world.nextSpan])
      ∧ (processHandler c).world.nextSpan = c.world.nextSpan + 1
      ∧ (processHandler c).method = c.method
      ∧ (processHandler c).fullPath = c.fullPath := by
  unfold processHandler
  cases h : c.world.randInts <;> cases h2 : c.world.randBelow <;>
    simp only [tracerStart, randIntn, randFloat32Below, sleepMillis, spanSetAttributes, spanEnd,
      Context.json, h, h2] <;>
    split <;> simp

/-! ## Route matching -/

/-- A text without `/` is one segment. -/
theorem splitSlash_no_slash (l : List Char) (h : '/' ∉ l) : splitSlash l = [l] := by
  induction l with
  | nil => rfl
  | cons ch rest ih =>
    have h1 : ch ≠ '/' := fun e => h (e ▸ List.mem_cons_self _ _)
    have h2 : '/' ∉ rest := fun m => h (List.mem_cons_of_mem _ m)
    simp [splitSlash, h1, ih h2]

/-- The segments of `/api/users/a`. -/
theorem splitSlash_users_path (a : String) (hs : '/' ∉ a.data) :
    splitSlash ("/api/users/" ++ a).data
      = [[], ['a', 'p', 'i'], ['u', 's', 'e', 'r', 's'], a.data] := by
  have h : ("/api/users/" ++ a).data
      = '/' :: 'a' :: 'p' :: 'i' :: '/' :: 'u' :: 's' :: 'e' :: 'r' :: 's' :: '/' :: a.data := by
    rw [String.data_append]; rfl
  rw [h]
  simp [splitSlash, splitSlash_no_slash a.data hs]

/-- The path `/api/users/a` is routed to `getUserHandler` with `id` bound to `a`. -/
theorem findRoute_users_path (a : String) (hne : a ≠ "") (hs : '/' ∉ a.data) :
    findRoute setupRouter.routes "GET" ("/api/users/" ++ a)
      = some ({ method := "GET", template := "/api/users/:id", handler := getUserHandler },
              [("id", a)]) := by
  have t1 : splitSlash "/health".data = [[], ['h', 'e', 'a', 'l', 't', 'h']] := by decide
  have t2 : splitSlash "/api/users".data = [[], ['a', 'p', 'i'], ['u', 's', 'e', 'r', 's']] := by
    decide
  have t3 : splitSlash "/api/users/:id".data
      = [[], ['a', 'p', 'i'], ['u', 's', 'e', 'r', 's'], [':', 'i', 'd']] := by decide
  have hd : a.data ≠ [] := by
    intro h
    apply hne
    cases a
    simp_all
  have hr : setupRouter.routes =
      [ { method := "GET", template := "/health", handler := healthHandler },
        { method := "GET", template := "/api/users", handler := getUsersHandler },
        { method := "GET", template := "/api/users/:id", handler := getUserHandler },
        { method := "POST", template := "/api/process", handler := processHandler } ] := rfl
  rw [hr]
  simp only [findRoute, t1, t2, t3, splitSlash_users_path a hs]
  simp [matchSegments, hd]

/-- The chain `setupRouter` builds: recovery outermost, then tracing, logging,
metrics. -/
theorem setupRouter_chain (final : HandlerFunc) :
    setupRouter.chain final
      = ginRecovery (otelginMiddleware "backend" (loggingMiddleware (metricsMiddleware final))) :=
  rfl

/-- What the middleware of `setupRouter` adds around a registered handler `h`
that turns the context `c0` (the request context after the tracing middleware
has started its span) into `h c0`. -/
theorem chain_runHandler (h : Context → Context) (c : Context) :
    ∃ d dl c',
      setupRouter.chain (runHandler h) c = (c', Exit.returned)
      ∧ c'.world.events =
          (h (enterSpan c)).world.events ++
            [TelemetryEvent.counterAdd 1
               [("method", AttrValue.str c'.method), ("path", AttrValue.str c'.fullPath),
                ("status", AttrValue.int c'.status)],
             TelemetryEvent.histogramRecord d
               [("method", AttrValue.str c'.method), ("path", AttrValue.str c'.fullPath),
                ("status", AttrValue.int c'.status)],
             TelemetryEvent.logInfo "HTTP request"
               [("method", AttrValue.str c'.method), ("path", AttrValue.str c.path),
                ("status", AttrValue.int c'.status), ("duration", AttrValue.int dl),
                ("client_ip", AttrValue.str c'.clientIP)],
             TelemetryEvent.spanEnd c.world.nextSpan]
      ∧ c'.status = (h (enterSpan c)).status
      ∧ c'.fullPath = (h (enterSpan c)).fullPath
      ∧ c'.method = (h (enterSpan c)).method
      ∧ c'.body = (h (enterSpan c)).body := by
  refine ⟨(((h (enterSpan c)).world.clock - c.world.clock) / 1000000 : Nat),
    ((h (enterSpan c)).world.clock - c.world.clock : Nat),
    (setupRouter.chain (runHandler h) c).1, ?_, ?_, ?_, ?_, ?_, ?_⟩
  all_goals
    simp [setupRouter_chain, ginRecovery, otelginMiddleware, loggingMiddleware,
      metricsMiddleware, runHandler, requestCounterAdd, requestDurationRecord, loggerInfo,
      spanEnd, spanSetAttributes, tracerStart, enterSpan]

/-! ## The router as a whole -/

/-- Spans started in a concatenation. -/
theorem startedSpans_append (l1 l2 : List TelemetryEvent) :
    startedSpans (l1 ++ l2) = startedSpans l1 ++ startedSpans l2 := by
  induction l1 with
  | nil => rfl
  | cons a l ih => cases a <;> simp [startedSpans, ih]

/-- Spans ended in a concatenation. -/
theorem endedSpans_append (l1 l2 : List TelemetryEvent) :
    endedSpans (l1 ++ l2) = endedSpans l1 ++ endedSpans l2 := by
  induction l1 with
  | nil => rfl
  | cons a l ih => cases a <;> simp [endedSpans, ih]

/-- Counter increments in a concatenation. -/
theorem counterAdds_append (l1 l2 : List TelemetryEvent) :
    counterAdds (l1 ++ l2) = counterAdds l1 ++ counterAdds l2 := by
  induction l1 with
  | nil => rfl
  | cons a l ih => cases a <;> simp [counterAdds, ih]

/-- Histogram observations in a concatenation. -/
theorem histogramRecords_append (l1 l2 : List TelemetryEvent) :
    histogramRecords (l1 ++ l2) = histogramRecords l1 ++ histogramRecords l2 := by
  induction l1 with
  | nil => rfl
  | cons a l ih => cases a <;> simp [histogramRecords, ih]

/-- A route found is a registered route. -/
theorem findRoute_mem (routes : List Route) (method path : String) (r : Route)
    (ps : List (String × String)) (h : findRoute routes method path = some (r, ps)) :
    r ∈ routes := by
  induction routes with
  | nil => simp [findRoute] at h
  | cons a rest ih =>
    unfold findRoute at h
    split at h
    · split at h
      · simp at h
        simp [h.1]
      · exact List.mem_cons_of_mem _ (ih h)
    · exact List.mem_cons_of_mem _ (ih h)

/-- The routes of `setupRouter`: each handler leaves the method and the route of
the context untouched, records no metric itself, and starts `k` new spans,
numbered from the next free number and ended innermost first. -/
theorem setupRouter_route_summary (r : Route) (h : r ∈ setupRouter.routes) :
    ∃ k, (r.template, k) ∈ [("/health", 0), ("/api/users", 2), ("/api/users/:id", 2),
          ("/api/process", 1)]
      ∧ ∀ c : Context, ∃ evs : List TelemetryEvent,
          (r.handler c).world.events = c.world.events ++ evs
            ∧ counterAdds evs = []
            ∧ histogramRecords evs = []
            ∧ startedSpans evs = List.range' c.world.nextSpan k
            ∧ endedSpans evs = (List.range' c.world.nextSpan k).reverse
            ∧ (r.handler c).method = c.method
            ∧ (r.handler c).fullPath = c.fullPath := by
  have hr : setupRouter.routes =
      [ { method := "GET", template := "/health", handler := healthHandler },
        { method := "GET", template := "/api/users", handler := getUsersHandler },
        { method := "GET", template := "/api/users/:id", handler := getUserHandler },
        { method := "POST", template := "/api/process", handler := processHandler } ] := rfl
  rw [hr] at h
  simp only [List.mem_cons, List.mem_singleton, List.not_mem_nil, or_false] at h
  rcases h with h | h | h | h <;> subst h
  · refine ⟨0, by simp, fun c => ?_⟩
    exact ⟨[], by simp [healthHandler, Context.json], rfl, rfl, rfl, rfl, rfl, rfl⟩
  · refine ⟨2, by simp, fun c => ?_⟩
    obtain ⟨h1, _, _, h4, h5⟩ := getUsersHandler_world c
    exact ⟨_, h1, rfl, rfl, rfl, rfl, h4, h5⟩
  · refine ⟨2, by simp, fun c => ?_⟩
    obtain ⟨h1, _, h4, h5⟩ := getUserHandler_world c
    exact ⟨_, h1, rfl, rfl, rfl, rfl, h4, h5⟩
  · refine ⟨1, by simp, fun c => ?_⟩
    obtain ⟨h1, _, h4, h5⟩ := processHandler_world c
    rcases h1 with h1 | h1
    · exact ⟨_, h1, rfl, rfl, rfl, rfl, h4, h5⟩
    · exact ⟨_, h1, rfl, rfl, rfl, rfl, h4, h5⟩

/-- Every request the router hands to a registered route: the exit, the events
added and the route recorded. -/
theorem serveHTTP_summary (c c' : Context) (x : Exit)
    (h : setupRouter.serveHTTP c = some (c', x)) :
    ∃ k evs d dl,
      x = Exit.returned
      ∧ (c'.fullPath, k) ∈ [("/health", 0), ("/api/users", 2), ("/api/users/:id", 2),
          ("/api/process", 1)]
      ∧ newEvents c.world c'.world =
          [TelemetryEvent.spanStart c.world.nextSpan c'.fullPath,
           TelemetryEvent.spanSetAttributes c.world.nextSpan
             [("http.method", AttrValue.str c.method), ("http.route", AttrValue.str c'.fullPath)]]
          ++ evs ++
          [TelemetryEvent.counterAdd 1
             [("method", AttrValue.str c'.method), ("path", AttrValue.str c'.fullPath),
              ("status", AttrValue.int c'.status)],
           TelemetryEvent.histogramRecord d
             [("method", AttrValue.str c'.method), ("path", AttrValue.str c'.fullPath),
              ("status", AttrValue.int c'.status)],
           TelemetryEvent.logInfo "HTTP request"
             [("method", AttrValue.str c'.method), ("path", AttrValue.str c.path),
              ("status", AttrValue.int c'.status), ("duration", AttrValue.int dl),
              ("client_ip", AttrValue.str c'.clientIP)],
           TelemetryEvent.spanEnd c.world.nextSpan]
      ∧ counterAdds evs = []
      ∧ histogramRecords evs = []
      ∧ startedSpans evs = List.range' (c.world.nextSpan + 1) k
      ∧ endedSpans evs = (List.range' (c.world.nextSpan + 1) k).reverse := by
  unfold Engine.serveHTTP at h
  split at h
  · rename_i r ps hf
    simp only [Option.some.injEq] at h
    obtain ⟨k, hk, hs⟩ := setupRouter_route_summary r (findRoute_mem _ _ _ _ _ hf)
    obtain ⟨d, dl, c1, hc, he, _, hfp, hm, _⟩ :=
      chain_runHandler r.handler { c with fullPath := r.template, params := ps }
    rw [hc] at h
    simp only [Prod.mk.injEq] at h
    obtain ⟨h1, h2⟩ := h
    subst h1
    obtain ⟨evs, e1, e2, e3, e4, e5, e6, e7⟩ :=
      hs (enterSpan { c with fullPath := r.template, params := ps })
    have hfp' : c1.fullPath = r.template := by rw [hfp, e7]; rfl
    refine ⟨k, evs, d, dl, h2.symm, by rw [hfp']; exact hk, ?_, e2, e3, ?_, ?_⟩
    · rw [newEvents, he, e1, hfp']
      simp [enterSpan, spanSetAttributes, tracerStart]
    · rw [e4]; rfl
    · rw [e5]; rfl
  · cases h

/-! ## User lookup -/

/-- The mock table holds exactly the identifiers "1", "2" and "3". -/
theorem mockUsers_lookup (id : String) (now : Int) :
    (id = "1" → (mockUsers now).lookup id
        = some { ID := 1, Name := "Alice", Email := "alice@example.com", CreatedAt := now })
      ∧ (id = "2" → (mockUsers now).lookup id
        = some { ID := 2, Name := "Bob", Email := "bob@example.com", CreatedAt := now })
      ∧ (id = "3" → (mockUsers now).lookup id
        = some { ID := 3, Name := "Charlie", Email := "charlie@example.com", CreatedAt := now })
      ∧ (id ∉ ["1", "2", "3"] → (mockUsers now).lookup id = none) := by
  refine ⟨?_, ?_, ?_, ?_⟩
  · intro h; subst h; rfl
  · intro h; subst h; rfl
  · intro h; subst h; rfl
  · intro h
    simp only [List.mem_cons, List.mem_singleton, List.not_mem_nil, or_false, not_or] at h
    obtain ⟨h1, h2, h3⟩ := h
    have b1 : (id == "1") = false := by simpa using h1
    have b2 : (id == "2") = false := by simpa using h2
    have b3 : (id == "3") = false := by simpa using h3
    simp [mockUsers, List.lookup, b1, b2, b3]

/-- The result of `fetchUserByID` is the table entry of the identifier. -/
theorem fetchUserByID_result (id : String) (w : World) :
    ∃ now, (fetchUserByID id w).1 = (mockUsers now).lookup id := by
  unfold fetchUserByID
  cases h : w.randInts <;>
    simp only [tracerStart, randIntn, sleepMillis, spanSetAttributes, spanEnd, h] <;>
    exact ⟨_, rfl⟩

/-- The answer of `getUserHandler` follows the table entry of the parameter `id`. -/
theorem getUserHandler_result (c : Context) :
    ∃ now,
      ((mockUsers now).lookup (c.param "id") = none →
          (getUserHandler c).status = 404
            ∧ (getUserHandler c).body = some (Body.h [("error", JSONValue.str "User not found")]))
      ∧ (∀ u, (mockUsers now).lookup (c.param "id") = some u →
          (getUserHandler c).status = 200 ∧ (getUserHandler c).body = some (Body.user u)) := by
  unfold getUserHandler fetchUserByID
  cases h : c.world.randInts
  · refine ⟨(c.world.clock : Int), ?_, ?_⟩
    · intro hl
      simp [tracerStart, randIntn, sleepMillis, spanSetAttributes, spanEnd, Context.json, h, hl]
    · intro u hl
      simp [tracerStart, randIntn, sleepMillis, spanSetAttributes, spanEnd, Context.json, h, hl]
  · rename_i r rest
    refine ⟨(c.world.clock : Int) + (r : Int) % 100 * 1000000, ?_, ?_⟩
    · intro hl
      simp [tracerStart, randIntn, sleepMillis, spanSetAttributes, spanEnd, Context.json, h, hl]
    · intro u hl
      simp [tracerStart, randIntn, sleepMillis, spanSetAttributes, spanEnd, Context.json, h, hl]

/-- The events appended by a run. -/
theorem newEvents_append (w w1 : World) (l : List TelemetryEvent)
    (h : w1.events = w.events ++ l) : newEvents w w1 = l := by
  simp [newEvents, h]

/-- One span, started and ended. -/
theorem spansEndedOnce_one (n : Nat) (evs : List TelemetryEvent)
    (hs : startedSpans evs = [n]) (he : endedSpans evs = [n]) : SpansEndedOnce evs := by
  simp [SpansEndedOnce, hs, he]

/-- Two spans, the inner one ended first. -/
theorem spansEndedOnce_two (n : Nat) (evs : List TelemetryEvent)
    (hs : startedSpans evs = [n, n + 1]) (he : endedSpans evs = [n + 1, n]) :
    SpansEndedOnce evs := by
  simp [SpansEndedOnce, hs, he, List.count_cons]

/-- When the failure is drawn `processHandler` answers 500. -/
theorem processHandler_failed_status (c : Context) (rest : List Bool)
    (h : c.world.randBelow = true :: rest) : (processHandler c).status = 500 := by
  unfold processHandler
  cases h1 : c.world.randInts <;>
    simp [tracerStart, randIntn, randFloat32Below, sleepMillis, spanSetAttributes, spanEnd,
      Context.json, h, h1]

/-- C6: in every run of `fetchUsers`, `fetchUserByID`, `getUsersHandler`,
`getUserHandler` and `processHandler`, whatever the identifier, the random
values and the state before, every span the run starts is ended exactly once
during the run and no other span is ended; this holds in particular on the 404
return of `getUserHandler` (unknown identifier) and on the 500 return of
`processHandler` (failure drawn). -/
theorem handler_spans_ended_exactly_once (w : World) (id : String) (c : Context) :
    (SpansEndedOnce (newEvents w (fetchUsers w).2)
        ∧ startedSpans (newEvents w (fetchUsers w).2) = [w.nextSpan])
      ∧ (SpansEndedOnce (newEvents w (fetchUserByID id w).2)
        ∧ startedSpans (newEvents w (fetchUserByID id w).2) = [w.nextSpan])
      ∧ (SpansEndedOnce (newEvents c.world (getUsersHandler c).world)
        ∧ startedSpans (newEvents c.world (getUsersHandler c).world)
            = [c.world.nextSpan, c.world.nextSpan + 1])
      ∧ (SpansEndedOnce (newEvents c.world (getUserHandler c).world)
        ∧ startedSpans (newEvents c.world (getUserHandler c).world)
            = [c.world.nextSpan, c.world.nextSpan + 1])
      ∧ (SpansEndedOnce (newEvents c.world (processHandler c).world)
        ∧ startedSpans (newEvents c.world (processHandler c).world) = [c.world.nextSpan])
      ∧ (c.param "id" ∉ ["1", "2", "3"] →
          (getUserHandler c).status = 404
            ∧ SpansEndedOnce (newEvents c.world (getUserHandler c).world))
      ∧ (∀ rest, c.world.randBelow = true :: rest →
          (processHandler c).status = 500
            ∧ SpansEndedOnce (newEvents c.world (processHandler c).world)) := by
  have hu : SpansEndedOnce (newEvents c.world (getUserHandler c).world)
      ∧ startedSpans (newEvents c.world (getUserHandler c).world)
          = [c.world.nextSpan, c.world.nextSpan + 1] := by
    rw [newEvents_append c.world _ _ (getUserHandler_world c).1]
    exact ⟨spansEndedOnce_two c.world.nextSpan _ rfl rfl, rfl⟩
  have hp : SpansEndedOnce (newEvents c.world (processHandler c).world)
      ∧ startedSpans (newEvents c.world (processHandler c).world) = [c.world.nextSpan] := by
    rcases (processHandler_world c).1 with h | h <;>
      rw [newEvents_append c.world _ _ h] <;>
      exact ⟨spansEndedOnce_one c.world.nextSpan _ rfl rfl, rfl⟩
  refine ⟨?_, ?_, ?_, hu, hp, ?_, ?_⟩
  · rw [newEvents_append w _ _ (fetchUsers_world w).1]
    exact ⟨spansEndedOnce_one w.nextSpan _ rfl rfl, rfl⟩
  · rw [newEvents_append w _ _ (fetchUserByID_world id w).1]
    exact ⟨spansEndedOnce_one w.nextSpan _ rfl rfl, rfl⟩
  · rw [newEvents_append c.world _ _ (getUsersHandler_world c).1]
    exact ⟨spansEndedOnce_two c.world.nextSpan _ rfl rfl, rfl⟩
  · intro hi
    obtain ⟨now, hn, _⟩ := getUserHandler_result c
    exact ⟨(hn ((mockUsers_lookup _ now).2.2.2 hi)).1, hu.1⟩
  · intro rest hr
    exact ⟨processHandler_failed_status c rest hr, hp.1⟩

/-! ## Properties of request handling -/

/-- The parameter `id` of a context routed to `/api/users/:id`. -/
theorem param_id (c : Context) (a : String) (w : World) :
    ({ c with fullPath := "/api/users/:id", params := [("id", a)], world := w } : Context).param "id"
      = a := by
  simp [Context.param, List.find?]

/-- A GET of `/api/users/a` runs the chain around `getUserHandler`. -/
theorem serveHTTP_users_path (c : Context) (a : String) (hm : c.method = "GET")
    (hp : c.path = "/api/users/" ++ a) (hne : a ≠ "") (hs : '/' ∉ a.data) :
    setupRouter.serveHTTP c
      = some (setupRouter.chain (runHandler getUserHandler)
          { c with fullPath := "/api/users/:id", params := [("id", a)] }) := by
  unfold Engine.serveHTTP
  rw [hm, hp, findRoute_users_path a hne hs]

/-- C9: `fetchUserByID` returns a user exactly for the identifiers "1", "2" and
"3", and then the record of that identifier ("1": 1, Alice, alice@example.com);
`getUserHandler` answers 200 with that record for these identifiers and 404 with
the body error "User not found" for every other one, also when the request
comes through the router as GET /api/users/ followed by the identifier. -/
theorem getUserHandler_known_or_not_found (id : String) (w : World) (c : Context) :
    (((fetchUserByID id w).1.isSome = true ↔ id ∈ ["1", "2", "3"])
      ∧ (∀ u, (fetchUserByID id w).1 = some u →
          (id, u.ID, u.Name, u.Email) ∈
            [("1", 1, "Alice", "alice@example.com"), ("2", 2, "Bob", "bob@example.com"),
             ("3", 3, "Charlie", "charlie@example.com")]))
      ∧ (c.param "id" ∈ ["1", "2", "3"] →
          (getUserHandler c).status = 200
            ∧ ∃ u, (getUserHandler c).body = some (Body.user u)
                ∧ (c.param "id", u.ID, u.Name, u.Email) ∈
                  [("1", 1, "Alice", "alice@example.com"), ("2", 2, "Bob", "bob@example.com"),
                   ("3", 3, "Charlie", "charlie@example.com")])
      ∧ (c.param "id" ∉ ["1", "2", "3"] →
          (getUserHandler c).status = 404
            ∧ (getUserHandler c).body = some (Body.h [("error", JSONValue.str "User not found")]))
      ∧ (c.method = "GET" → c.path = "/api/users/" ++ id → id ≠ "" → '/' ∉ id.data →
          ∃ c', setupRouter.serveHTTP c = some (c', Exit.returned)
            ∧ (id ∈ ["1", "2", "3"] →
                c'.status = 200
                  ∧ ∃ u, c'.body = some (Body.user u)
                      ∧ (id, u.ID, u.Name, u.Email) ∈
                        [("1", 1, "Alice", "alice@example.com"), ("2", 2, "Bob", "bob@example.com"),
                         ("3", 3, "Charlie", "charlie@example.com")])
            ∧ (id ∉ ["1", "2", "3"] →
                c'.status = 404
                  ∧ c'.body = some (Body.h [("error", JSONValue.str "User not found")]))) := by
  have known : ∀ (i : String) (now : Int), i ∈ ["1", "2", "3"] →
      ∃ u, (mockUsers now).lookup i = some u ∧ (i, u.ID, u.Name, u.Email) ∈
        [("1", 1, "Alice", "alice@example.com"), ("2", 2, "Bob", "bob@example.com"),
         ("3", 3, "Charlie", "charlie@example.com")] := by
    intro i now hi
    obtain ⟨l1, l2, l3, _⟩ := mockUsers_lookup i now
    simp only [List.mem_cons, List.mem_singleton, List.not_mem_nil, or_false] at hi
    rcases hi with h | h | h
    · exact ⟨_, l1 h, by subst h; simp⟩
    · exact ⟨_, l2 h, by subst h; simp⟩
    · exact ⟨_, l3 h, by subst h; simp⟩
  have handler : ∀ c0 : Context,
      (c0.param "id" ∈ ["1", "2", "3"] →
          (getUserHandler c0).status = 200
            ∧ ∃ u, (getUserHandler c0).body = some (Body.user u)
                ∧ (c0.param "id", u.ID, u.Name, u.Email) ∈
                  [("1", 1, "Alice", "alice@example.com"), ("2", 2, "Bob", "bob@example.com"),
                   ("3", 3, "Charlie", "charlie@example.com")])
      ∧ (c0.param "id" ∉ ["1", "2", "3"] →
          (getUserHandler c0).status = 404
            ∧ (getUserHandler c0).body
                = some (Body.h [("error", JSONValue.str "User not found")])) := by
    intro c0
    obtain ⟨now, hn, hs⟩ := getUserHandler_result c0
    refine ⟨?_, ?_⟩
    · intro hi
      obtain ⟨u, hu, hmem⟩ := known _ now hi
      exact ⟨(hs u hu).1, u, (hs u hu).2, hmem⟩
    · intro hi
      exact hn ((mockUsers_lookup _ now).2.2.2 hi)
  refine ⟨⟨?_, ?_⟩, (handler c).1, (handler c).2, ?_⟩
  · obtain ⟨now, hf⟩ := fetchUserByID_result id w
    rw [hf]
    constructor
    · intro hsome
      by_contra hi
      rw [(mockUsers_lookup id now).2.2.2 hi] at hsome
      cases hsome
    · intro hi
      obtain ⟨u, hu, _⟩ := known id now hi
      rw [hu]; rfl
  · intro u hu
    obtain ⟨now, hf⟩ := fetchUserByID_result id w
    rw [hf] at hu
    by_cases hi : id ∈ ["1", "2", "3"]
    · obtain ⟨u', hu', hmem⟩ := known id now hi
      rw [hu'] at hu
      cases hu
      exact hmem
    · rw [(mockUsers_lookup id now).2.2.2 hi] at hu
      cases hu
  · intro hm hp hne hs
    obtain ⟨d, dl, c1, hc, _, hst, _, _, hb⟩ :=
      chain_runHandler getUserHandler { c with fullPath := "/api/users/:id", params := [("id", id)] }
    refine ⟨c1, ?_, ?_, ?_⟩
    · rw [serveHTTP_users_path c id hm hp hne hs, hc]
    · intro hi
      have hh := (handler (enterSpan
        { c with fullPath := "/api/users/:id", params := [("id", id)] })).1
      have hpar : (enterSpan { c with fullPath := "/api/users/:id", params := [("id", id)] }).param
          "id" = id := param_id c id _
      rw [hpar] at hh
      rw [hst, hb]
      exact hh hi
    · intro hi
      have hh := (handler (enterSpan
        { c with fullPath := "/api/users/:id", params := [("id", id)] })).2
      have hpar : (enterSpan { c with fullPath := "/api/users/:id", params := [("id", id)] }).param
          "id" = id := param_id c id _
      rw [hpar] at hh
      rw [hst, hb]
      exact hh hi

/-- C9 (witness): GET /api/users/999 through the router is answered 404 with the
body error "User not found". -/
theorem getUserHandler_999_not_found :
    ∃ c', setupRouter.serveHTTP (newRequest "GET" "/api/users/999" (World.start 0 [42] []))
        = some (c', Exit.returned)
      ∧ c'.status = 404
      ∧ c'.body = some (Body.h [("error", JSONValue.str "User not found")]) := by
  obtain ⟨c', h1, _, h3⟩ :=
    (getUserHandler_known_or_not_found "999" (World.start 0 [42] [])
      (newRequest "GET" "/api/users/999" (World.start 0 [42] []))).2.2.2
      (by decide) (by decide) (by decide) (by decide)
  exact ⟨c', h1, h3 (by decide)⟩

/-- The metric records of a request the router hands to a registered route. -/
theorem serveHTTP_metric_records (c c' : Context) (x : Exit)
    (h : setupRouter.serveHTTP c = some (c', x)) :
    x = Exit.returned
      ∧ c'.fullPath ∈ ["/health", "/api/users", "/api/users/:id", "/api/process"]
      ∧ counterAdds (newEvents c.world c'.world) =
          [(1, [("method", AttrValue.str c'.method), ("path", AttrValue.str c'.fullPath),
                ("status", AttrValue.int c'.status)])]
      ∧ histogramRecords (newEvents c.world c'.world) =
          [[("method", AttrValue.str c'.method), ("path", AttrValue.str c'.fullPath),
            ("status", AttrValue.int c'.status)]] := by
  obtain ⟨k, evs, d, dl, hx, hk, he, hc, hh, _, _⟩ := serveHTTP_summary c c' x h
  refine ⟨hx, ?_, ?_, ?_⟩
  · simp only [List.mem_cons, List.mem_singleton, List.not_mem_nil, or_false,
      Prod.mk.injEq] at hk ⊢
    rcases hk with h | h | h | h <;> simp [h.1]
  · rw [he]
    simp [counterAdds_append, hc, counterAdds]
  · rw [he]
    simp [histogramRecords_append, hh, histogramRecords]

/-- C3 (counterexample): a handler panics behind the middleware of `setupRouter`;
the recovery middleware recovers the panic and answers 500, and the request
counter and the duration histogram receive nothing. -/
theorem metrics_missing_after_recovered_panic :
    (setupRouter.chain panickingHandler
        (newRequest "GET" "/api/users" (World.start 0 [] []))).2 = Exit.returned
      ∧ (setupRouter.chain panickingHandler
        (newRequest "GET" "/api/users" (World.start 0 [] []))).1.status = 500
      ∧ counterAdds (setupRouter.chain panickingHandler
        (newRequest "GET" "/api/users" (World.start 0 [] []))).1.world.events = []
      ∧ histogramRecords (setupRouter.chain panickingHandler
        (newRequest "GET" "/api/users" (World.start 0 [] []))).1.world.events = [] := by
  decide

/-- C3 (amended): whenever the wrapped handler returns (with a success or an error
status), `metricsMiddleware` adds 1 to the request counter once and records one
duration, both with the attributes method, route template and final status; when
the wrapped handler panics, `metricsMiddleware` records nothing and the panic
passes on.  Every request the router of `setupRouter` hands to a registered
route returns and leaves exactly one such increment and one such observation,
labelled with one of the four route templates. -/
theorem metricsMiddleware_records_once_on_return :
    (∀ (next : HandlerFunc) (c c1 : Context), next c = (c1, Exit.returned) →
        (metricsMiddleware next c).2 = Exit.returned
          ∧ ∃ d, (metricsMiddleware next c).1.world.events = c1.world.events ++
              [TelemetryEvent.counterAdd 1
                 [("method", AttrValue.str c1.method), ("path", AttrValue.str c1.fullPath),
                  ("status", AttrValue.int c1.status)],
               TelemetryEvent.histogramRecord d
                 [("method", AttrValue.str c1.method), ("path", AttrValue.str c1.fullPath),
                  ("status", AttrValue.int c1.status)]])
      ∧ (∀ (next : HandlerFunc) (c c1 : Context) (v : String), next c = (c1, Exit.panicked v) →
          metricsMiddleware next c = (c1, Exit.panicked v))
      ∧ (∀ (c c' : Context) (x : Exit), setupRouter.serveHTTP c = some (c', x) →
          x = Exit.returned
            ∧ c'.fullPath ∈ ["/health", "/api/users", "/api/users/:id", "/api/process"]
            ∧ counterAdds (newEvents c.world c'.world) =
                [(1, [("method", AttrValue.str c'.method), ("path", AttrValue.str c'.fullPath),
                      ("status", AttrValue.int c'.status)])]
            ∧ histogramRecords (newEvents c.world c'.world) =
                [[("method", AttrValue.str c'.method), ("path", AttrValue.str c'.fullPath),
                  ("status", AttrValue.int c'.status)]]) := by
  refine ⟨?_, ?_, ?_⟩
  · intro next c c1 h
    simp [metricsMiddleware, h, requestCounterAdd, requestDurationRecord]
  · intro next c c1 v h
    simp [metricsMiddleware, h]
  · intro c c' x h
    exact serveHTTP_metric_records c c' x h

/-- C3 (witness): a POST /api/process that draws the failure returns 500 and leaves
one counter increment of 1 labelled POST, /api/process, 500. -/
theorem metricsMiddleware_records_failed_process :
    ∃ c', setupRouter.serveHTTP (newRequest "POST" "/api/process" (World.start 0 [7] [true]))
        = some (c', Exit.returned)
      ∧ counterAdds (newEvents (World.start 0 [7] [true]) c'.world) =
          [(1, [("method", AttrValue.str "POST"), ("path", AttrValue.str "/api/process"),
                ("status", AttrValue.int 500)])] :=
  ⟨_, rfl, (metricsMiddleware_records_once_on_return.2.2
    (newRequest "POST" "/api/process" (World.start 0 [7] [true])) _ _ rfl).2.2.1⟩

/-- C4: two GET requests /api/users/a and /api/users/b, with a and b non-empty
segments, are both handled, and the route label of the counter increment and of
the histogram observation is the template "/api/users/:id" for both (so it is
the raw path only for a request whose segment is the text ":id" itself). -/
theorem route_label_is_template (a b : String) (ca cb : Context)
    (hma : ca.method = "GET") (hpa : ca.path = "/api/users/" ++ a)
    (hna : a ≠ "") (hsa : '/' ∉ a.data)
    (hmb : cb.method = "GET") (hpb : cb.path = "/api/users/" ++ b)
    (hnb : b ≠ "") (hsb : '/' ∉ b.data) :
    ∃ ca' cb',
      setupRouter.serveHTTP ca = some (ca', Exit.returned)
      ∧ setupRouter.serveHTTP cb = some (cb', Exit.returned)
      ∧ routeLabels (newEvents ca.world ca'.world)
          = [some (AttrValue.str "/api/users/:id"), some (AttrValue.str "/api/users/:id")]
      ∧ routeLabels (newEvents cb.world cb'.world) = routeLabels (newEvents ca.world ca'.world)
      ∧ (a ≠ ":id" → some (AttrValue.str ca.path) ∉ routeLabels (newEvents ca.world ca'.world)) := by
  have one : ∀ (s : String) (c : Context), c.method = "GET" → c.path = "/api/users/" ++ s →
      s ≠ "" → '/' ∉ s.data →
      ∃ c', setupRouter.serveHTTP c = some (c', Exit.returned)
        ∧ routeLabels (newEvents c.world c'.world)
          = [some (AttrValue.str "/api/users/:id"), some (AttrValue.str "/api/users/:id")] := by
    intro s c hm hp hn hs
    have hserve := serveHTTP_users_path c s hm hp hn hs
    obtain ⟨d, dl, c1, hc, _, _, hfp, _, _⟩ :=
      chain_runHandler getUserHandler { c with fullPath := "/api/users/:id", params := [("id", s)] }
    rw [hc] at hserve
    obtain ⟨_, _, hrec, hhist⟩ := serveHTTP_metric_records c c1 Exit.returned hserve
    have hfp' : c1.fullPath = "/api/users/:id" := by
      rw [hfp, (getUserHandler_world _).2.2.2]; rfl
    refine ⟨c1, hserve, ?_⟩
    simp [routeLabels, hrec, hhist, hfp', attrOf, List.lookup]
  obtain ⟨ca', ha1, ha2⟩ := one a ca hma hpa hna hsa
  obtain ⟨cb', hb1, hb2⟩ := one b cb hmb hpb hnb hsb
  refine ⟨ca', cb', ha1, hb1, ha2, by rw [ha2, hb2], ?_⟩
  intro hid
  rw [ha2, hpa]
  have hne : "/api/users/" ++ a ≠ "/api/users/:id" := by
    intro h
    apply hid
    have h2 : ("/api/users/" ++ a).data = ("/api/users/" ++ ":id").data := by rw [h]; rfl
    rw [String.data_append, String.data_append] at h2
    exact String.ext (List.append_cancel_left h2)
  simp [hne]

/-- C4 (witness): GET /api/users/42 and GET /api/users/7 are both labelled
"/api/users/:id". -/
theorem route_label_users_42_and_7 :
    ∃ ca' cb',
      setupRouter.serveHTTP (newRequest "GET" "/api/users/42" (World.start 0 [3] []))
          = some (ca', Exit.returned)
      ∧ setupRouter.serveHTTP (newRequest "GET" "/api/users/7" (World.start 9 [5] []))
          = some (cb', Exit.returned)
      ∧ routeLabels (newEvents (World.start 0 [3] []) ca'.world)
          = [some (AttrValue.str "/api/users/:id"), some (AttrValue.str "/api/users/:id")]
      ∧ routeLabels (newEvents (World.start 9 [5] []) cb'.world)
          = routeLabels (newEvents (World.start 0 [3] []) ca'.world) := by
  obtain ⟨ca', cb', h1, h2, h3, h4, _⟩ :=
    route_label_is_template "42" "7"
      (newRequest "GET" "/api/users/42" (World.start 0 [3] []))
      (newRequest "GET" "/api/users/7" (World.start 9 [5] []))
      (by decide) (by decide) (by decide) (by decide)
      (by decide) (by decide) (by decide) (by decide)
  exact ⟨ca', cb', h1, h2, h3, h4⟩

/-- C5 (counterexample): handling GET /api/users starts three spans and ends
three, two of them started by `getUsersHandler` and `fetchUsers` themselves. -/
theorem users_request_starts_three_spans :
    (startedSpans (getUsersHandler
        (newRequest "GET" "/api/users" (World.start 0 [3] []))).world.events).length = 2
      ∧ (setupRouter.serveHTTP (newRequest "GET" "/api/users" (World.start 0 [3] []))).map
          (fun r => ((startedSpans r.1.world.events).length, (endedSpans r.1.world.events).length))
        = some (3, 3) := by
  decide

/-- C5 (amended): for every request the router hands to one of the four registered
routes, with a success or an error answer, every span started during the
handling is ended exactly once during it; the spans are one for /health, three
for /api/users and for /api/users/:id, two for /api/process. -/
theorem request_spans_ended_once (c c' : Context) (x : Exit)
    (h : setupRouter.serveHTTP c = some (c', x)) :
    x = Exit.returned
      ∧ SpansEndedOnce (newEvents c.world c'.world)
      ∧ (startedSpans (newEvents c.world c'.world)).length
          = (endedSpans (newEvents c.world c'.world)).length
      ∧ (c'.fullPath, (startedSpans (newEvents c.world c'.world)).length) ∈
          [("/health", 1), ("/api/users", 3), ("/api/users/:id", 3), ("/api/process", 2)] := by
  obtain ⟨k, evs, d, dl, hx, hk, he, _, _, hs, hen⟩ := serveHTTP_summary c c' x h
  have hst : startedSpans (newEvents c.world c'.world)
      = c.world.nextSpan :: List.range' (c.world.nextSpan + 1) k := by
    rw [he]; simp [startedSpans_append, startedSpans, hs]
  have hed : endedSpans (newEvents c.world c'.world)
      = (List.range' (c.world.nextSpan + 1) k).reverse ++ [c.world.nextSpan] := by
    rw [he]; simp [endedSpans_append, endedSpans, hen]
  rw [hst, hed]
  simp only [List.mem_cons, List.mem_singleton, List.not_mem_nil, or_false, Prod.mk.injEq] at hk
  refine ⟨hx, ?_, ?_, ?_⟩
  · unfold SpansEndedOnce
    rw [hst, hed]
    rcases hk with h | h | h | h <;> obtain ⟨_, rfl⟩ := h <;>
      simp [List.range', List.count_cons] <;> omega
  · simp
  · rcases hk with h | h | h | h <;> obtain ⟨h1, rfl⟩ := h <;> simp [h1]

/-- C5 (witness): a POST /api/process that draws the failure returns 500 with two
spans started, each ended exactly once. -/
theorem request_spans_failed_process :
    ∃ c', setupRouter.serveHTTP (newRequest "POST" "/api/process" (World.start 0 [7] [true]))
        = some (c', Exit.returned)
      ∧ c'.status = 500
      ∧ SpansEndedOnce (newEvents (World.start 0 [7] [true]) c'.world)
      ∧ (startedSpans (newEvents (World.start 0 [7] [true]) c'.world)).length = 2 :=
  ⟨_, rfl, rfl,
    (request_spans_ended_once (newRequest "POST" "/api/process" (World.start 0 [7] [true]))
      _ _ rfl).2.1, rfl⟩

end Backend
